import Mathlib

/-!
Verification development for the imagen-thumbnail-api compositing engine.

This file gives a shallow embedding of the deterministic compositing core:
the geometry resolvers (src/services/contextualCompositing.ts and the
lifestyle compositing service), the scene-aware shadow preset resolver,
the radial-gradient vignette generator (src/services/gradientService.ts),
the Gaussian blur wrapper (src/services/blurService.ts), and the layer
lists assembled by the three pipeline orchestrators.  JavaScript numbers
are modelled as exact rationals (every constant appearing in the source is
exactly representable at the precision the program relies on), Math.floor
as the integer floor, and the sharp image library's raster operations as
dimension- and provenance-tracking functions.  Theorems about the claims
of the specification follow the definitions.
-/

/-! Canvas constants shared by every compositing module (both sources
define the same two constants). -/

def THUMBNAIL_WIDTH : ℤ := 1280

def THUMBNAIL_HEIGHT : ℤ := 720

/-- Bounding box returned by the geometry resolvers: integer pixel
coordinates, as produced by the Math.floor calls in the source. -/
structure Box where
  x : ℤ
  y : ℤ
  width : ℤ
  height : ℤ
deriving DecidableEq, Repr

/-- Placement intents of the pedestal, from the PedestalPosition union type
(gradientService.ts and the scene design schema). -/
inductive PedestalPosition where
  | center
  | rightThird
  | leftThird
  | centerBottom
deriving DecidableEq, Repr

/-- Lighting type enumeration from the scene design schema
(generateContextualThumbnail.ts). -/
inductive LightingType where
  | dramatic
  | soft
  | natural
  | studio
  | goldenHour
  | neon
deriving DecidableEq, Repr

/-- Lighting intensity enumeration from the scene design schema. -/
inductive LightingIntensity where
  | highContrast
  | balanced
  | lowKey
deriving DecidableEq, Repr

/-- Color scheme mood enumeration from the scene design schema. -/
inductive Mood where
  | energetic
  | premium
  | calm
  | natural
  | bold
  | elegant
  | playful
deriving DecidableEq, Repr

/-- The lighting sub-object of a scene design (only the fields the
compositing core consumes). -/
structure Lighting where
  type : LightingType
  intensity : LightingIntensity
deriving DecidableEq, Repr

/-- The environment sub-object of a scene design. -/
structure SceneEnvironment where
  lighting : Lighting
deriving DecidableEq, Repr

/-- The color scheme sub-object of a scene design. -/
structure ColorScheme where
  background : String
  mood : Mood
deriving DecidableEq, Repr

/-- The pedestal sub-object of a scene design. -/
structure Pedestal where
  position : PedestalPosition
  hasReflection : Bool
  productSpaceRatio : ℚ
deriving DecidableEq, Repr

/-- A scene design, restricted to the fields consumed by the compositing
core (src/types, consumed via contextualCompositing.ts). -/
structure SceneDesign where
  environment : SceneEnvironment
  colorScheme : ColorScheme
  pedestal : Pedestal
deriving DecidableEq, Repr

/-- Shadow or reflection effect preset: blur radius, x/y offsets and
opacity, as in SHADOW_PRESETS of contextualCompositing.ts. -/
structure ShadowPreset where
  blur : ℚ
  offsetX : ℤ
  offsetY : ℤ
  opacity : ℚ
deriving DecidableEq, Repr

namespace SHADOW_PRESETS

/-- Preset for dark backgrounds (contextualCompositing.ts line 19). -/
def dark : ShadowPreset := ⟨30, 0, 20, 0.5⟩

/-- Preset for light backgrounds (line 21). -/
def light : ShadowPreset := ⟨25, 5, 15, 0.4⟩

/-- Preset for dramatic lighting (line 23). -/
def dramatic : ShadowPreset := ⟨35, 10, 25, 0.6⟩

/-- Preset for soft lighting (line 25). -/
def soft : ShadowPreset := ⟨15, 3, 8, 0.2⟩

/-- Default preset (line 27). -/
def default : ShadowPreset := ⟨20, 5, 12, 0.35⟩

end SHADOW_PRESETS

/-- Substring test modelling JavaScript String.prototype.includes. -/
def strContains (s pat : String) : Bool :=
  decide (pat.toList <:+: s.toList)

/-- Shadow preset resolver of the contextual pipeline, translated from
getShadowFromDesign (contextualCompositing.ts lines 39 to 68). -/
def getShadowFromDesign (design : SceneDesign) : ShadowPreset :=
  let bgColor := design.colorScheme.background
  let isDarkBg : Bool :=
    bgColor.toLower == "#000000" ||
      strContains bgColor.toLower "1c1c1e" ||
      design.colorScheme.mood == Mood.bold ||
      design.colorScheme.mood == Mood.energetic
  let lightingType := design.environment.lighting.type
  let lightingIntensity := design.environment.lighting.intensity
  if lightingType == LightingType.dramatic || lightingType == LightingType.neon then
    SHADOW_PRESETS.dramatic
  else if lightingType == LightingType.soft || lightingIntensity == LightingIntensity.lowKey then
    SHADOW_PRESETS.soft
  else if isDarkBg then
    SHADOW_PRESETS.dark
  else if !isDarkBg then
    SHADOW_PRESETS.light
  else
    SHADOW_PRESETS.default

/-- Aspect-preserving draw-size computation shared verbatim by the
contextual resolver (contextualCompositing.ts lines 82 to 104) and the
lifestyle resolver (lifestyleCompositing.ts lines 53 to 75): fit the
cutout to the target width (aspect above one) or to 85 percent of the
canvas height (aspect at most one), then re-clamp to keep it in frame. -/
def drawSize (targetWidth : ℤ) (cutoutAspect : ℚ) : ℤ × ℤ :=
  if 1 < cutoutAspect then
    let drawWidth := targetWidth
    let drawHeight := ⌊(targetWidth : ℚ) / cutoutAspect⌋
    if (THUMBNAIL_HEIGHT : ℚ) * 0.8 < (drawHeight : ℚ) then
      let clampedHeight := ⌊(THUMBNAIL_HEIGHT : ℚ) * 0.8⌋
      (⌊(clampedHeight : ℚ) * cutoutAspect⌋, clampedHeight)
    else
      (drawWidth, drawHeight)
  else
    let drawHeight := ⌊(THUMBNAIL_HEIGHT : ℚ) * 0.85⌋
    let drawWidth := ⌊(drawHeight : ℚ) * cutoutAspect⌋
    if targetWidth < drawWidth then
      (targetWidth, ⌊(targetWidth : ℚ) / cutoutAspect⌋)
    else
      (drawWidth, drawHeight)

/-- Target width of the contextual resolver: a fraction of the canvas
width given by the scene's productSpaceRatio, floored
(contextualCompositing.ts line 79).  No clamping is applied here. -/
def contextualTargetWidth (productSpaceRatio : ℚ) : ℤ :=
  ⌊(THUMBNAIL_WIDTH : ℚ) * productSpaceRatio⌋

/-- Validation applied by the request schema to pedestal.productSpaceRatio
(generateContextualThumbnail.ts, sceneDesignSchema:
z.number().min(0.2).max(0.6)).  Out-of-range values are rejected by the
route, not clamped. -/
def productSpaceRatioValid (r : ℚ) : Bool :=
  decide ((0.2 : ℚ) ≤ r) && decide (r ≤ (0.6 : ℚ))

namespace ContextualCompositing

/-- Geometry resolver of the contextual pipeline, translated from
calculateProductPosition (contextualCompositing.ts lines 73 to 143). -/
def calculateProductPosition (pedestalPosition : PedestalPosition)
    (productSpaceRatio : ℚ) (cutoutWidth cutoutHeight : ℚ) : Box :=
  let targetWidth := contextualTargetWidth productSpaceRatio
  let cutoutAspect := cutoutWidth / cutoutHeight
  let s := drawSize targetWidth cutoutAspect
  let drawWidth := max s.1 200
  let drawHeight := max s.2 200
  let x : ℤ :=
    match pedestalPosition with
    | PedestalPosition.center => ⌊((THUMBNAIL_WIDTH - drawWidth : ℤ) : ℚ) / 2⌋
    | PedestalPosition.centerBottom => ⌊((THUMBNAIL_WIDTH - drawWidth : ℤ) : ℚ) / 2⌋
    | PedestalPosition.rightThird => ⌊(THUMBNAIL_WIDTH : ℚ) * 0.65 - (drawWidth : ℚ) / 2⌋
    | PedestalPosition.leftThird => ⌊(THUMBNAIL_WIDTH : ℚ) * 0.35 - (drawWidth : ℚ) / 2⌋
  let y : ℤ :=
    match pedestalPosition with
    | PedestalPosition.center => ⌊((THUMBNAIL_HEIGHT - drawHeight : ℤ) : ℚ) / 2⌋
    | PedestalPosition.centerBottom => ⌊(THUMBNAIL_HEIGHT : ℚ) * 0.65 - (drawHeight : ℚ)⌋
    | PedestalPosition.rightThird => ⌊((THUMBNAIL_HEIGHT - drawHeight : ℤ) : ℚ) / 2⌋
    | PedestalPosition.leftThird => ⌊((THUMBNAIL_HEIGHT - drawHeight : ℤ) : ℚ) / 2⌋
  { x := max 20 (min x (THUMBNAIL_WIDTH - drawWidth - 20)),
    y := max 20 (min y (THUMBNAIL_HEIGHT - drawHeight - 20)),
    width := drawWidth, height := drawHeight }

end ContextualCompositing

namespace LifestyleCompositing

/-- Geometry resolver of the lifestyle pipeline, translated from
calculateProductPosition (lifestyleCompositing.ts lines 43 to 114): same
size computation with a fixed 35 percent width target, but thirds
anchored at the 33 and 67 percent points and a center default. -/
def calculateProductPosition (pedestalPosition : PedestalPosition)
    (cutoutWidth cutoutHeight : ℚ) : Box :=
  let cutoutAspect := cutoutWidth / cutoutHeight
  let targetWidth : ℤ := ⌊(THUMBNAIL_WIDTH : ℚ) * 0.35⌋
  let s := drawSize targetWidth cutoutAspect
  let drawWidth := max s.1 200
  let drawHeight := max s.2 200
  let x : ℤ :=
    match pedestalPosition with
    | PedestalPosition.center => ⌊((THUMBNAIL_WIDTH - drawWidth : ℤ) : ℚ) / 2⌋
    | PedestalPosition.centerBottom => ⌊((THUMBNAIL_WIDTH - drawWidth : ℤ) : ℚ) / 2⌋
    | PedestalPosition.rightThird => ⌊(THUMBNAIL_WIDTH : ℚ) * 0.67 - (drawWidth : ℚ) / 2⌋
    | PedestalPosition.leftThird => ⌊(THUMBNAIL_WIDTH : ℚ) * 0.33 - (drawWidth : ℚ) / 2⌋
  let y : ℤ :=
    match pedestalPosition with
    | PedestalPosition.center => ⌊((THUMBNAIL_HEIGHT - drawHeight : ℤ) : ℚ) / 2⌋
    | PedestalPosition.centerBottom => ⌊(THUMBNAIL_HEIGHT : ℚ) * 0.65 - (drawHeight : ℚ)⌋
    | PedestalPosition.rightThird => ⌊((THUMBNAIL_HEIGHT - drawHeight : ℤ) : ℚ) / 2⌋
    | PedestalPosition.leftThird => ⌊((THUMBNAIL_HEIGHT - drawHeight : ℤ) : ℚ) / 2⌋
  { x := max 20 (min x (THUMBNAIL_WIDTH - drawWidth - 20)),
    y := max 20 (min y (THUMBNAIL_HEIGHT - drawHeight - 20)),
    width := drawWidth, height := drawHeight }

end LifestyleCompositing

/-- Frame invariant asserted by the specification for every resolved box:
at least 20 pixels from every edge of the 1280 by 720 canvas, and at
least 200 pixels in each dimension. -/
def boxWithinFrame (b : Box) : Prop :=
  20 ≤ b.x ∧ b.x + b.width ≤ 1260 ∧ 20 ≤ b.y ∧ b.y + b.height ≤ 700 ∧
    200 ≤ b.width ∧ 200 ≤ b.height

/-! Raster model.  The sharp image library is external to the repository;
rasters are modelled by their dimensions together with the ordered list
of operations that produced them, which is exactly the information the
specification's claims about blur and layer order observe. -/

/-- Kind of a composite layer: the shadow raster, the reflection raster,
or the product cutout raster. -/
inductive LayerKind where
  | shadow
  | reflection
  | product
deriving DecidableEq, Repr

/-- One entry of a sharp composite call: which raster, and the top/left
coordinates it is drawn at. -/
structure CompositeLayer where
  kind : LayerKind
  top : ℤ
  left : ℤ
deriving DecidableEq, Repr

/-- Operations recorded on a raster. -/
inductive RasterOp where
  | blur (radius : ℚ)
  | draw (layer : CompositeLayer)
deriving DecidableEq, Repr

/-- An in-memory raster: dimensions plus provenance. -/
structure Raster where
  width : ℕ
  height : ℕ
  ops : List RasterOp
deriving DecidableEq, Repr

/-- Models the blur operator of the sharp library: per its contract (and
the repository's blurService tests, which assert it) the output raster
has the dimensions of the input; the applied radius is recorded. -/
def sharpBlur (img : Raster) (radius : ℚ) : Raster :=
  ⟨img.width, img.height, img.ops ++ [RasterOp.blur radius]⟩

/-- Models one composite draw of the sharp library: standard over
blending of one layer onto a base raster, keeping the base dimensions
and recording the drawn layer. -/
def sharpDraw (base : Raster) (layer : CompositeLayer) : Raster :=
  ⟨base.width, base.height, base.ops ++ [RasterOp.draw layer]⟩

/-- Models a sharp composite call with a list of layers: the layers are
drawn in list order, first entry first, last entry last and therefore
topmost. -/
def sharpComposite (base : Raster) (layers : List CompositeLayer) : Raster :=
  layers.foldl sharpDraw base

/-! Blur service (src/services/blurService.ts). -/

def MIN_BLUR_RADIUS : ℚ := 8

def MAX_BLUR_RADIUS : ℚ := 15

def DEFAULT_BLUR_RADIUS : ℚ := 12

/-- Gaussian blur wrapper, translated from applyGaussianBlur
(blurService.ts lines 22 to 32): the radius is clamped to the valid
range and never rejected, then sharp's blur is applied. -/
def applyGaussianBlur (imageBuffer : Raster)
    (radius : ℚ := DEFAULT_BLUR_RADIUS) : Raster :=
  let clampedRadius := max MIN_BLUR_RADIUS (min MAX_BLUR_RADIUS radius)
  sharpBlur imageBuffer clampedRadius

/-! Gradient service (src/services/gradientService.ts). -/

def MIN_OPACITY : ℚ := 0.20

def MAX_OPACITY : ℚ := 0.30

def DEFAULT_OPACITY : ℚ := 0.25

/-- Gradient center mapping, translated from POSITION_MAP
(gradientService.ts lines 25 to 30). -/
def POSITION_MAP : PedestalPosition → ℚ × ℚ
  | PedestalPosition.center => (0.5, 0.55)
  | PedestalPosition.rightThird => (0.67, 0.55)
  | PedestalPosition.leftThird => (0.33, 0.55)
  | PedestalPosition.centerBottom => (0.5, 0.7)

/-- JavaScript Math.round: round half toward positive infinity. -/
def jsRound (q : ℚ) : ℤ :=
  ⌊q + 1 / 2⌋

/-- JavaScript Number.prototype.toString with base 16 on a nonnegative
integer: lowercase hex digits. -/
def toStringBase16 (n : ℕ) : String :=
  ⟨Nat.toDigits 16 n⟩

/-- JavaScript String.prototype.padStart with target length 2. -/
def padStart2 (s : String) (c : Char) : String :=
  if 2 ≤ s.length then s else ⟨List.replicate (2 - s.length) c ++ s.toList⟩

/-- One stop of the radial gradient SVG. -/
structure GradientStop where
  offset : ℕ
  stopColor : String
deriving DecidableEq, Repr

/-- The radial gradient SVG produced by the gradient service, modelled
structurally: dimensions, gradient center and radius, and the stops. -/
structure RadialGradientSvg where
  width : ℕ
  height : ℕ
  cx : ℚ
  cy : ℚ
  r : ℚ
  stops : List GradientStop
deriving DecidableEq, Repr

/-- Vignette generator, translated from createRadialGradient
(gradientService.ts lines 44 to 72): clamp the opacity to the valid
range, convert to a two-digit hex alpha, and emit a three-stop
transparent-to-black radial gradient. -/
def createRadialGradient (width height : ℕ) (position : PedestalPosition)
    (opacity : ℚ := DEFAULT_OPACITY) : RadialGradientSvg :=
  let p := POSITION_MAP position
  let clampedOpacity := max MIN_OPACITY (min MAX_OPACITY opacity)
  let opacityHex := padStart2 (toStringBase16 (jsRound (clampedOpacity * 255)).toNat) '0'
  { width := width, height := height, cx := p.1, cy := p.2, r := 0.7,
    stops := [⟨0, "transparent"⟩, ⟨60, "transparent"⟩, ⟨100, "#000000" ++ opacityHex⟩] }

/-! Layer lists assembled by the pipeline orchestrators. -/

/-- Composite inputs of the contextual pipeline, translated from
compositeContextualThumbnail (contextualCompositing.ts lines 209 to
245): the shadow layer is pushed first; a reflection layer is pushed
only when the pedestal has a reflection and sits at center-bottom and
its synthesis succeeded; the product cutout is pushed last. -/
def contextualCompositeInputs (position : Box) (shadow : ShadowPreset)
    (hasReflection : Bool) (pedestalPosition : PedestalPosition)
    (reflectionOk : Bool) : List CompositeLayer :=
  let compositeInputs : List CompositeLayer :=
    [⟨LayerKind.shadow, max 0 (position.y + shadow.offsetY),
      max 0 (position.x + shadow.offsetX)⟩]
  let compositeInputs :=
    if hasReflection && pedestalPosition == PedestalPosition.centerBottom then
      if reflectionOk then
        compositeInputs ++
          [⟨LayerKind.reflection,
            min (THUMBNAIL_HEIGHT - 50) (position.y + position.height),
            position.x⟩]
      else
        compositeInputs
    else
      compositeInputs
  compositeInputs ++ [⟨LayerKind.product, position.y, position.x⟩]

/-- Composite inputs of the flat pipeline, translated from
compositeProductOnBackground (compositingService, lines 313 to 327 of
the concatenated source): shadow layer then product cutout. -/
def compositeProductLayers (x y : ℤ) (shadow : ShadowPreset) : List CompositeLayer :=
  [⟨LayerKind.shadow, max 0 (y + shadow.offsetY), max 0 (x + shadow.offsetX)⟩,
   ⟨LayerKind.product, y, x⟩]

/-- Composite inputs of the lifestyle pipeline, translated from
compositeLifestyleThumbnail step 6 (lifestyleCompositing.ts lines 170 to
179): the product cutout alone, drawn onto the blurred and vignetted
background. -/
def lifestyleCompositeLayers (productPosition : Box) : List CompositeLayer :=
  [⟨LayerKind.product, productPosition.y, productPosition.x⟩]

/-! Contextual pipeline orchestrator.  The sharp calls it makes are
fallible; which of them succeed is an input of the model, so that the
error propagation of the source (every failure rethrown by the outer
catch, except reflection synthesis whose failure only drops the layer)
is visible in the result. -/

/-- Outcome environment for the sharp calls made by
compositeContextualThumbnail, in source order. -/
structure SharpEnv where
  metadataWidth : Option ℚ
  metadataHeight : Option ℚ
  metadataOk : Bool
  resizeCutoutOk : Bool
  shadowOk : Bool
  resizeBackgroundOk : Bool
  reflectionOk : Bool
  compositeOk : Bool
deriving DecidableEq, Repr

/-- Errors a pipeline invocation can surface to its caller, one per
fallible sharp call outside the reflection sub-step. -/
inductive PipelineError where
  | metadata
  | resizeCutout
  | shadow
  | resizeBackground
  | composite
deriving DecidableEq, Repr

/-- Result of the contextual pipeline (ContextualCompositingResult with
the composited layer list in place of the encoded image). -/
structure ContextualResult where
  composited : Bool
  position : Box
  layers : List CompositeLayer
deriving DecidableEq, Repr

/-- Contextual pipeline orchestrator, translated from
compositeContextualThumbnail (contextualCompositing.ts lines 158 to
262): metadata defaults to 400 by 400, geometry and shadow preset are
resolved from the scene design, the layer list is assembled, and any
failing sharp call other than reflection synthesis aborts the
invocation with an error. -/
def compositeContextualThumbnail (env : SharpEnv) (sceneDesign : SceneDesign) :
    Except PipelineError ContextualResult :=
  if !env.metadataOk then Except.error PipelineError.metadata else
  let cutoutWidth := env.metadataWidth.getD 400
  let cutoutHeight := env.metadataHeight.getD 400
  let position := ContextualCompositing.calculateProductPosition
    sceneDesign.pedestal.position sceneDesign.pedestal.productSpaceRatio
    cutoutWidth cutoutHeight
  if !env.resizeCutoutOk then Except.error PipelineError.resizeCutout else
  let shadow := getShadowFromDesign sceneDesign
  if !env.shadowOk then Except.error PipelineError.shadow else
  if !env.resizeBackgroundOk then Except.error PipelineError.resizeBackground else
  let compositeInputs := contextualCompositeInputs position shadow
    sceneDesign.pedestal.hasReflection sceneDesign.pedestal.position
    env.reflectionOk
  if !env.compositeOk then Except.error PipelineError.composite else
  Except.ok { composited := true, position := position, layers := compositeInputs }

/-! Helper lemmas about the geometry resolvers. -/

/-- Size bound of the shared draw-size computation: the width never
exceeds 768 pixels and the height never exceeds 612 pixels, for any
target width at most 768 and any positive aspect ratio. -/
theorem drawSize_le (targetWidth : ℤ) (a : ℚ) (h2 : targetWidth ≤ 768)
    (ha : 0 < a) :
    (drawSize targetWidth a).1 ≤ 768 ∧ (drawSize targetWidth a).2 ≤ 612 := by
  have h08 : (THUMBNAIL_HEIGHT : ℚ) * 0.8 = 576 := by norm_num [THUMBNAIL_HEIGHT]
  have h576 : (⌊(576 : ℚ)⌋ : ℤ) = 576 := by norm_num
  have h085 : (⌊(THUMBNAIL_HEIGHT : ℚ) * 0.85⌋ : ℤ) = 612 := by
    norm_num [THUMBNAIL_HEIGHT]
  simp only [drawSize, h08, h576, h085]
  split_ifs with hA hB hC
  · have hB' : (576 : ℤ) < ⌊(targetWidth : ℚ) / a⌋ := by exact_mod_cast hB
    have h577 : ((577 : ℤ) : ℚ) ≤ (targetWidth : ℚ) / a :=
      Int.le_floor.mp (by omega)
    have hmul : (577 : ℚ) * a ≤ (targetWidth : ℚ) := by
      rw [le_div_iff₀ ha] at h577
      exact_mod_cast h577
    have htw : (targetWidth : ℚ) ≤ 768 := by exact_mod_cast h2
    have hlt : ((576 : ℤ) : ℚ) * a < ((768 : ℤ) : ℚ) := by
      push_cast
      linarith
    have := Int.floor_lt.mpr hlt
    constructor
    · omega
    · norm_num
  · have hB' : (⌊(targetWidth : ℚ) / a⌋ : ℤ) ≤ 576 := by
      have := not_lt.mp hB
      exact_mod_cast this
    exact ⟨h2, by omega⟩
  · have hC' : (targetWidth : ℚ) < ((612 : ℤ) : ℚ) * a := by
      calc (targetWidth : ℚ) < (⌊((612 : ℤ) : ℚ) * a⌋ : ℚ) := by exact_mod_cast hC
        _ ≤ ((612 : ℤ) : ℚ) * a := Int.floor_le _
    have hdiv : (targetWidth : ℚ) / a < ((612 : ℤ) : ℚ) := by
      rw [div_lt_iff₀ ha]
      linarith
    have := Int.floor_lt.mpr hdiv
    exact ⟨h2, by omega⟩
  · have hC' : ⌊((612 : ℤ) : ℚ) * a⌋ ≤ targetWidth := not_lt.mp hC
    exact ⟨by omega, le_refl _⟩

/-- Any box whose axes are clamped as the resolvers clamp them, with
width at most 768 and height at most 612, lies within the frame. -/
theorem clamped_box_bounds (x0 y0 W H : ℤ) (hW1 : 200 ≤ W) (hW2 : W ≤ 768)
    (hH1 : 200 ≤ H) (hH2 : H ≤ 612) :
    boxWithinFrame
      { x := max 20 (min x0 (THUMBNAIL_WIDTH - W - 20)),
        y := max 20 (min y0 (THUMBNAIL_HEIGHT - H - 20)),
        width := W, height := H } := by
  simp only [boxWithinFrame, THUMBNAIL_WIDTH, THUMBNAIL_HEIGHT]
  refine ⟨le_max_left _ _, ?_, le_max_left _ _, ?_, hW1, hH1⟩
  · have hx : max 20 (min x0 (1280 - W - 20)) ≤ 1280 - W - 20 :=
      max_le (by omega) (min_le_right _ _)
    omega
  · have hy : max 20 (min y0 (720 - H - 20)) ≤ 720 - H - 20 :=
      max_le (by omega) (min_le_right _ _)
    omega

/-- Frame invariant of the contextual resolver for any ratio at most
0.6 and positive cutout dimensions. -/
theorem contextual_position_within (pos : PedestalPosition) (r w h : ℚ)
    (hr2 : r ≤ 3/5) (hw : 0 < w) (hh : 0 < h) :
    boxWithinFrame (ContextualCompositing.calculateProductPosition pos r w h) := by
  have ha : 0 < w / h := div_pos hw hh
  have h1280 : (THUMBNAIL_WIDTH : ℚ) = 1280 := by norm_num [THUMBNAIL_WIDTH]
  have htw : contextualTargetWidth r ≤ 768 := by
    unfold contextualTargetWidth
    rw [h1280]
    calc ⌊(1280 : ℚ) * r⌋ ≤ ⌊(768 : ℚ)⌋ := Int.floor_le_floor (by linarith)
      _ = 768 := by norm_num
  obtain ⟨hW, hH⟩ := drawSize_le (contextualTargetWidth r) (w / h) htw ha
  cases pos <;>
    exact clamped_box_bounds _ _ _ _ (le_max_right _ _) (max_le hW (by norm_num))
      (le_max_right _ _) (max_le hH (by norm_num))

/-- Frame invariant of the lifestyle resolver for positive cutout
dimensions. -/
theorem lifestyle_position_within (pos : PedestalPosition) (w h : ℚ)
    (hw : 0 < w) (hh : 0 < h) :
    boxWithinFrame (LifestyleCompositing.calculateProductPosition pos w h) := by
  have ha : 0 < w / h := div_pos hw hh
  have htw : (⌊(THUMBNAIL_WIDTH : ℚ) * 0.35⌋ : ℤ) ≤ 768 := by
    norm_num [THUMBNAIL_WIDTH]
  obtain ⟨hW, hH⟩ := drawSize_le _ _ htw ha
  cases pos <;>
    exact clamped_box_bounds _ _ _ _ (le_max_right _ _) (max_le hW (by norm_num))
      (le_max_right _ _) (max_le hH (by norm_num))

/-- C1: for every cutout width and height at least one, every placement
intent, and (for the contextual resolver) every productSpaceRatio in
the range 0.2 to 0.6, the box returned by calculateProductPosition on
the fixed 1280 by 720 canvas satisfies 20 ≤ x, x + width ≤ 1260,
20 ≤ y, y + height ≤ 700, width ≥ 200 and height ≥ 200, in both the
contextual and the lifestyle resolver. -/
theorem C1_resolver_box_within_frame (pos : PedestalPosition) (r w h : ℚ)
    (hr1 : 1/5 ≤ r) (hr2 : r ≤ 3/5) (hw : 1 ≤ w) (hh : 1 ≤ h) :
    boxWithinFrame (ContextualCompositing.calculateProductPosition pos r w h) ∧
    boxWithinFrame (LifestyleCompositing.calculateProductPosition pos w h) :=
  ⟨contextual_position_within pos r w h hr2 (by linarith) (by linarith),
   lifestyle_position_within pos w h (by linarith) (by linarith)⟩

/-- Witness for C1 at a concrete input. -/
theorem C1_resolver_box_within_frame_witness :
    (1/5 : ℚ) ≤ 0.35 ∧ (0.35 : ℚ) ≤ 3/5 ∧ (1 : ℚ) ≤ 300 ∧ (1 : ℚ) ≤ 500 ∧
    (boxWithinFrame (ContextualCompositing.calculateProductPosition
        PedestalPosition.centerBottom 0.35 300 500) ∧
     boxWithinFrame (LifestyleCompositing.calculateProductPosition
        PedestalPosition.centerBottom 300 500)) :=
  ⟨by norm_num, by norm_num, by norm_num, by norm_num,
   C1_resolver_box_within_frame PedestalPosition.centerBottom 0.35 300 500
     (by norm_num) (by norm_num) (by norm_num) (by norm_num)⟩

/-- C9: the shared geometry resolvers depend on the cutout only through
its aspect ratio: two cutouts with equal width-to-height ratio produce
equal boxes under identical remaining inputs, in both the contextual
and the lifestyle resolver; the cutout's absolute pixel dimensions are
never copied into the result. -/
theorem C9_resolver_aspect_only (pos : PedestalPosition) (r w1 h1 w2 h2 : ℚ)
    (hh1 : 0 < h1) (hh2 : 0 < h2) (heq : w1 / h1 = w2 / h2) :
    ContextualCompositing.calculateProductPosition pos r w1 h1 =
      ContextualCompositing.calculateProductPosition pos r w2 h2 ∧
    LifestyleCompositing.calculateProductPosition pos w1 h1 =
      LifestyleCompositing.calculateProductPosition pos w2 h2 := by
  constructor
  · simp only [ContextualCompositing.calculateProductPosition, heq]
  · simp only [LifestyleCompositing.calculateProductPosition, heq]

/-- Witness for C9 at a concrete pair of cutouts with equal ratio. -/
theorem C9_resolver_aspect_only_witness :
    (0 : ℚ) < 1 ∧ (0 : ℚ) < 2 ∧ (2 : ℚ) / 1 = 4 / 2 ∧
    (ContextualCompositing.calculateProductPosition PedestalPosition.center (2/5) 2 1 =
       ContextualCompositing.calculateProductPosition PedestalPosition.center (2/5) 4 2 ∧
     LifestyleCompositing.calculateProductPosition PedestalPosition.center 2 1 =
       LifestyleCompositing.calculateProductPosition PedestalPosition.center 4 2) :=
  ⟨by norm_num, by norm_num, by norm_num,
   C9_resolver_aspect_only PedestalPosition.center (2/5) 2 1 4 2
     (by norm_num) (by norm_num) (by norm_num)⟩

/-! Concrete evaluations of the contextual resolver used by the
counterexamples below. -/

/-- Contextual resolver at center intent, ratio 1, cutout 2 by 1. -/
theorem contextual_center_ratio_one_eval :
    ContextualCompositing.calculateProductPosition PedestalPosition.center 1 2 1 =
      ⟨64, 72, 1152, 576⟩ := by
  norm_num [ContextualCompositing.calculateProductPosition, drawSize,
    contextualTargetWidth, THUMBNAIL_WIDTH, THUMBNAIL_HEIGHT, Box.mk.injEq]

/-- Contextual resolver at center intent, ratio 0.6, cutout 2 by 1. -/
theorem contextual_center_ratio_clamped_eval :
    ContextualCompositing.calculateProductPosition PedestalPosition.center (3/5) 2 1 =
      ⟨256, 168, 768, 384⟩ := by
  norm_num [ContextualCompositing.calculateProductPosition, drawSize,
    contextualTargetWidth, THUMBNAIL_WIDTH, THUMBNAIL_HEIGHT, Box.mk.injEq]

/-- C2 counterexample: calculateProductPosition applies no clamping to
productSpaceRatio.  At ratio 1 (above the claimed clamp bound 0.6) the
target width is floor(1280 times 1) = 1280, not floor(0.6 times 1280),
and the returned box differs from the one computed at the clamped
ratio: its width is 1152, which exceeds floor(0.6 times 1280) = 768. -/
theorem C2_counterexample_no_clamp :
    contextualTargetWidth 1 = 1280 ∧
    ContextualCompositing.calculateProductPosition PedestalPosition.center 1 2 1 ≠
      ContextualCompositing.calculateProductPosition PedestalPosition.center (3/5) 2 1 ∧
    (ContextualCompositing.calculateProductPosition PedestalPosition.center 1 2 1).width
      = 1152 := by
  refine ⟨by norm_num [contextualTargetWidth, THUMBNAIL_WIDTH], ?_, ?_⟩
  · rw [contextual_center_ratio_one_eval, contextual_center_ratio_clamped_eval]
    decide
  · rw [contextual_center_ratio_one_eval]

/-- C2 amended: the contextual resolver itself applies no clamping to
productSpaceRatio; its target width is floor(1280 times the ratio) for
every ratio.  The range 0.2 to 0.6 is enforced upstream by the request
schema, which rejects out-of-range values rather than clamping them,
and for every schema-valid ratio the target width lies between 256 and
768 = floor(0.6 times 1280). -/
theorem C2_target_width_schema_bounded (r : ℚ)
    (hvalid : productSpaceRatioValid r = true) :
    contextualTargetWidth r = ⌊(THUMBNAIL_WIDTH : ℚ) * r⌋ ∧
    256 ≤ contextualTargetWidth r ∧ contextualTargetWidth r ≤ 768 := by
  simp only [productSpaceRatioValid, Bool.and_eq_true, decide_eq_true_eq] at hvalid
  obtain ⟨hlo, hhi⟩ := hvalid
  have h1280 : (THUMBNAIL_WIDTH : ℚ) = 1280 := by norm_num [THUMBNAIL_WIDTH]
  refine ⟨rfl, ?_, ?_⟩
  · unfold contextualTargetWidth
    rw [h1280]
    exact Int.le_floor.mpr (by push_cast; nlinarith)
  · unfold contextualTargetWidth
    rw [h1280]
    calc ⌊(1280 : ℚ) * r⌋ ≤ ⌊(768 : ℚ)⌋ := Int.floor_le_floor (by nlinarith)
      _ = 768 := by norm_num

/-- Witness for the amended C2 at a concrete schema-valid ratio. -/
theorem C2_target_width_schema_bounded_witness :
    productSpaceRatioValid 0.25 = true ∧
    (contextualTargetWidth 0.25 = ⌊(THUMBNAIL_WIDTH : ℚ) * 0.25⌋ ∧
     256 ≤ contextualTargetWidth 0.25 ∧ contextualTargetWidth 0.25 ≤ 768) :=
  ⟨by norm_num [productSpaceRatioValid],
   C2_target_width_schema_bounded 0.25 (by norm_num [productSpaceRatioValid])⟩

/-- Anchored x coordinate: a box of width W horizontally centered on the
given fraction of the canvas width, floored and clamped to the frame
margins, as both resolvers compute it for the third intents. -/
def anchoredX (frac : ℚ) (W : ℤ) : ℤ :=
  max 20 (min ⌊(THUMBNAIL_WIDTH : ℚ) * frac - (W : ℚ) / 2⌋ (THUMBNAIL_WIDTH - W - 20))

/-- Vertically centered y coordinate of a box of height H, floored and
clamped to the frame margins. -/
def centeredY (H : ℤ) : ℤ :=
  max 20 (min ⌊((THUMBNAIL_HEIGHT - H : ℤ) : ℚ) / 2⌋ (THUMBNAIL_HEIGHT - H - 20))

/-- C3 counterexample: at a 1 by 1 cutout and ratio 0.6 the contextual
resolver returns x = 142 for the left-third intent (box width 612),
while the claimed formula floor(0.33 times 1280 minus width over 2)
gives 116, which the frame clamp leaves unchanged; 116 is not 142. -/
theorem C3_counterexample_contextual_anchor :
    ContextualCompositing.calculateProductPosition PedestalPosition.leftThird (3/5) 1 1 =
      ⟨142, 54, 612, 612⟩ ∧
    (⌊(0.33 : ℚ) * (THUMBNAIL_WIDTH : ℚ) - (612 : ℚ) / 2⌋ : ℤ) = 116 ∧
    max 20 (min 116 (THUMBNAIL_WIDTH - 612 - 20)) ≠ (142 : ℤ) := by
  refine ⟨?_, ?_, by norm_num [THUMBNAIL_WIDTH]⟩
  · norm_num [ContextualCompositing.calculateProductPosition, drawSize,
      contextualTargetWidth, THUMBNAIL_WIDTH, THUMBNAIL_HEIGHT, Box.mk.injEq]
  · rw [show (0.33 : ℚ) * (THUMBNAIL_WIDTH : ℚ) - (612 : ℚ) / 2 = 116.4 by
      norm_num [THUMBNAIL_WIDTH]]
    rw [Int.floor_eq_iff]
    norm_num

/-- C3 amended: the lifestyle resolver horizontally centers the third
intents on the 33 and 67 percent canvas-width points, with the box
vertically centered, while the contextual resolver anchors them on the
35 and 65 percent points instead (also vertically centered). -/
theorem C3_amended_third_anchors (r w h : ℚ) :
    ((LifestyleCompositing.calculateProductPosition PedestalPosition.leftThird w h).x =
      anchoredX 0.33
        (LifestyleCompositing.calculateProductPosition PedestalPosition.leftThird w h).width) ∧
    ((LifestyleCompositing.calculateProductPosition PedestalPosition.rightThird w h).x =
      anchoredX 0.67
        (LifestyleCompositing.calculateProductPosition PedestalPosition.rightThird w h).width) ∧
    ((LifestyleCompositing.calculateProductPosition PedestalPosition.leftThird w h).y =
      centeredY
        (LifestyleCompositing.calculateProductPosition PedestalPosition.leftThird w h).height) ∧
    ((LifestyleCompositing.calculateProductPosition PedestalPosition.rightThird w h).y =
      centeredY
        (LifestyleCompositing.calculateProductPosition PedestalPosition.rightThird w h).height) ∧
    ((ContextualCompositing.calculateProductPosition PedestalPosition.leftThird r w h).x =
      anchoredX 0.35
        (ContextualCompositing.calculateProductPosition PedestalPosition.leftThird r w h).width) ∧
    ((ContextualCompositing.calculateProductPosition PedestalPosition.rightThird r w h).x =
      anchoredX 0.65
        (ContextualCompositing.calculateProductPosition PedestalPosition.rightThird r w h).width) ∧
    ((ContextualCompositing.calculateProductPosition PedestalPosition.leftThird r w h).y =
      centeredY
        (ContextualCompositing.calculateProductPosition PedestalPosition.leftThird r w h).height) ∧
    ((ContextualCompositing.calculateProductPosition PedestalPosition.rightThird r w h).y =
      centeredY
        (ContextualCompositing.calculateProductPosition PedestalPosition.rightThird r w h).height) :=
  ⟨rfl, rfl, rfl, rfl, rfl, rfl, rfl, rfl⟩

/-- C4: getShadowFromDesign follows the priority order of the source:
dramatic or neon lighting gives the dramatic preset; otherwise soft
lighting or low-key intensity gives the soft preset; otherwise a dark
background (background color exactly the black hex, or containing the
near-black hex, or a bold or energetic mood) gives the dark preset;
otherwise the light preset.  Exactly one preset is returned, never a
blend. -/
theorem C4_shadow_preset_priority (d : SceneDesign) :
    (getShadowFromDesign d =
      if d.environment.lighting.type = LightingType.dramatic ∨
          d.environment.lighting.type = LightingType.neon then
        SHADOW_PRESETS.dramatic
      else if d.environment.lighting.type = LightingType.soft ∨
          d.environment.lighting.intensity = LightingIntensity.lowKey then
        SHADOW_PRESETS.soft
      else if ((d.colorScheme.background.toLower = "#000000" ∨
          strContains d.colorScheme.background.toLower "1c1c1e" = true) ∨
          d.colorScheme.mood = Mood.bold) ∨ d.colorScheme.mood = Mood.energetic then
        SHADOW_PRESETS.dark
      else
        SHADOW_PRESETS.light) ∧
    (getShadowFromDesign d = SHADOW_PRESETS.dramatic ∨
     getShadowFromDesign d = SHADOW_PRESETS.soft ∨
     getShadowFromDesign d = SHADOW_PRESETS.dark ∨
     getShadowFromDesign d = SHADOW_PRESETS.light) := by
  constructor
  · simp only [getShadowFromDesign, Bool.or_eq_true, beq_iff_eq]
    split_ifs <;> simp_all [Bool.or_eq_true, beq_iff_eq, Bool.not_eq_true', Bool.not_eq_false]
  · simp only [getShadowFromDesign, Bool.or_eq_true, beq_iff_eq]
    split_ifs <;> simp_all [Bool.or_eq_true, beq_iff_eq, Bool.not_eq_true', Bool.not_eq_false]

/-- C10: the final default-returning statement of getShadowFromDesign is
unreachable, because the dark-background test and its negation are
exhaustive: every scene design yields one of the dramatic, soft, dark
or light presets, and never the default preset. -/
theorem C10_default_preset_unreachable (d : SceneDesign) :
    getShadowFromDesign d ≠ SHADOW_PRESETS.default ∧
    (getShadowFromDesign d = SHADOW_PRESETS.dramatic ∨
     getShadowFromDesign d = SHADOW_PRESETS.soft ∨
     getShadowFromDesign d = SHADOW_PRESETS.dark ∨
     getShadowFromDesign d = SHADOW_PRESETS.light) := by
  constructor
  · simp only [getShadowFromDesign, Bool.or_eq_true, beq_iff_eq]
    split_ifs <;>
      (try simp_all [Bool.or_eq_true, beq_iff_eq, Bool.not_eq_true', Bool.not_eq_false]) <;>
      norm_num [SHADOW_PRESETS.dramatic, SHADOW_PRESETS.soft, SHADOW_PRESETS.dark,
        SHADOW_PRESETS.light, SHADOW_PRESETS.default, ShadowPreset.mk.injEq]
  · simp only [getShadowFromDesign, Bool.or_eq_true, beq_iff_eq]
    split_ifs <;> simp_all [Bool.or_eq_true, beq_iff_eq, Bool.not_eq_true', Bool.not_eq_false]

/-- Provenance of the modelled compositor: drawing a list of layers
appends one draw record per layer, in list order. -/
theorem sharpComposite_ops (base : Raster) (layers : List CompositeLayer) :
    (sharpComposite base layers).ops = base.ops ++ layers.map RasterOp.draw := by
  induction layers generalizing base with
  | nil => simp [sharpComposite]
  | cons l ls ih =>
    show (sharpComposite (sharpDraw base l) ls).ops = _
    rw [ih]
    simp [sharpDraw]

/-- C6: in every pipeline the composite layer list is shadow first (when
present), then reflection (when present), then the product cutout last,
and the compositor draws layers in list order onto the base, so the
last recorded draw, the topmost layer, is always the product cutout. -/
theorem C6_cutout_topmost (base : Raster) (pos : Box) (preset : ShadowPreset)
    (hasReflection : Bool) (pp : PedestalPosition) (reflectionOk : Bool) (x y : ℤ) :
    ((contextualCompositeInputs pos preset hasReflection pp reflectionOk).map
        CompositeLayer.kind = [LayerKind.shadow, LayerKind.product] ∨
      (contextualCompositeInputs pos preset hasReflection pp reflectionOk).map
        CompositeLayer.kind = [LayerKind.shadow, LayerKind.reflection, LayerKind.product]) ∧
    (sharpComposite base
        (contextualCompositeInputs pos preset hasReflection pp reflectionOk)).ops.getLast? =
      some (RasterOp.draw ⟨LayerKind.product, pos.y, pos.x⟩) ∧
    (compositeProductLayers x y preset).map CompositeLayer.kind =
      [LayerKind.shadow, LayerKind.product] ∧
    (sharpComposite base (compositeProductLayers x y preset)).ops.getLast? =
      some (RasterOp.draw ⟨LayerKind.product, y, x⟩) ∧
    (lifestyleCompositeLayers pos).map CompositeLayer.kind = [LayerKind.product] ∧
    (sharpComposite base (lifestyleCompositeLayers pos)).ops.getLast? =
      some (RasterOp.draw ⟨LayerKind.product, pos.y, pos.x⟩) := by
  refine ⟨?_, ?_, by simp [compositeProductLayers], ?_, by simp [lifestyleCompositeLayers], ?_⟩
  · unfold contextualCompositeInputs
    split_ifs <;> simp
  · rw [sharpComposite_ops]
    unfold contextualCompositeInputs
    split_ifs <;>
      simp [List.map_append, ← List.append_assoc, List.getLast?_concat]
  · rw [sharpComposite_ops]
    simp [compositeProductLayers, ← List.append_assoc]
  · rw [sharpComposite_ops]
    simp [lifestyleCompositeLayers, ← List.append_assoc, List.getLast?_concat]

/-- C5: in the contextual pipeline a reflection layer is present exactly
when the pedestal has a reflection, sits at center-bottom, and the
reflection synthesis succeeded; its top coordinate is the minimum of
canvas height minus 50 and subject bottom (so it never starts past
canvas height minus 50) and its left coordinate is the subject's x.
Reflection failure is non-fatal: with every other sharp call
succeeding the pipeline still returns a successful result with
composited true, while a failure of any other sharp call is
propagated to the caller as an error. -/
theorem C5_reflection_layer_and_errors (env : SharpEnv) (d : SceneDesign) :
    (env.metadataOk = true → env.resizeCutoutOk = true → env.shadowOk = true →
      env.resizeBackgroundOk = true → env.compositeOk = true →
      ∃ res, compositeContextualThumbnail env d = Except.ok res ∧
        res.composited = true ∧
        ((d.pedestal.hasReflection = true ∧
            d.pedestal.position = PedestalPosition.centerBottom ∧
            env.reflectionOk = true) ↔
          (⟨LayerKind.reflection,
            min (THUMBNAIL_HEIGHT - 50) (res.position.y + res.position.height),
            res.position.x⟩ : CompositeLayer) ∈ res.layers) ∧
        (∀ t l, (⟨LayerKind.reflection, t, l⟩ : CompositeLayer) ∈ res.layers →
          t = min (THUMBNAIL_HEIGHT - 50) (res.position.y + res.position.height) ∧
          t ≤ THUMBNAIL_HEIGHT - 50 ∧ l = res.position.x)) ∧
    ((env.metadataOk = false ∨ env.resizeCutoutOk = false ∨ env.shadowOk = false ∨
        env.resizeBackgroundOk = false ∨ env.compositeOk = false) →
      ∃ e, compositeContextualThumbnail env d = Except.error e) := by
  constructor
  · intro h1 h2 h3 h4 h5
    refine ⟨⟨true,
      ContextualCompositing.calculateProductPosition d.pedestal.position
        d.pedestal.productSpaceRatio (env.metadataWidth.getD 400)
        (env.metadataHeight.getD 400),
      contextualCompositeInputs
        (ContextualCompositing.calculateProductPosition d.pedestal.position
          d.pedestal.productSpaceRatio (env.metadataWidth.getD 400)
          (env.metadataHeight.getD 400))
        (getShadowFromDesign d) d.pedestal.hasReflection d.pedestal.position
        env.reflectionOk⟩,
      by simp [compositeContextualThumbnail, h1, h2, h3, h4, h5], rfl, ?_, ?_⟩
    · rcases hr : d.pedestal.hasReflection <;>
        rcases hp : d.pedestal.position <;>
        rcases ro : env.reflectionOk <;>
        simp [contextualCompositeInputs, hr, hp, ro, min_le_left]
    · intro t l hmem
      rcases hr : d.pedestal.hasReflection <;>
        rcases hp : d.pedestal.position <;>
        rcases ro : env.reflectionOk <;>
        simp [contextualCompositeInputs, hr, hp, ro] at hmem <;>
        simp [hmem, min_le_left]
  · intro herr
    rcases hm : env.metadataOk <;> rcases hc : env.resizeCutoutOk <;>
      rcases hs : env.shadowOk <;> rcases hb : env.resizeBackgroundOk <;>
      rcases hk : env.compositeOk <;>
      simp_all [compositeContextualThumbnail]

/-- Witness for C5: with all sharp calls succeeding except reflection
synthesis the pipeline still succeeds, and with the metadata call
failing it surfaces an error. -/
theorem C5_reflection_layer_and_errors_witness :
    (∃ res, compositeContextualThumbnail
        ⟨some 300, some 400, true, true, true, true, false, true⟩
        ⟨⟨⟨LightingType.natural, LightingIntensity.balanced⟩⟩, ⟨"#ffffff", Mood.calm⟩,
         ⟨PedestalPosition.centerBottom, true, 0.4⟩⟩ = Except.ok res ∧
      res.composited = true) ∧
    (∃ e, compositeContextualThumbnail
        ⟨some 300, some 400, false, true, true, true, true, true⟩
        ⟨⟨⟨LightingType.natural, LightingIntensity.balanced⟩⟩, ⟨"#ffffff", Mood.calm⟩,
         ⟨PedestalPosition.centerBottom, true, 0.4⟩⟩ = Except.error e) := by
  constructor
  · obtain ⟨res, hok, hcomp, -, -⟩ :=
      (C5_reflection_layer_and_errors
        ⟨some 300, some 400, true, true, true, true, false, true⟩
        ⟨⟨⟨LightingType.natural, LightingIntensity.balanced⟩⟩, ⟨"#ffffff", Mood.calm⟩,
         ⟨PedestalPosition.centerBottom, true, 0.4⟩⟩).1 rfl rfl rfl rfl rfl
    exact ⟨res, hok, hcomp⟩
  · exact (C5_reflection_layer_and_errors
        ⟨some 300, some 400, false, true, true, true, true, true⟩
        ⟨⟨⟨LightingType.natural, LightingIntensity.balanced⟩⟩, ⟨"#ffffff", Mood.calm⟩,
         ⟨PedestalPosition.centerBottom, true, 0.4⟩⟩).2 (Or.inl rfl)

/-- C8: applyGaussianBlur is total (it never rejects an out-of-range
radius), applies exactly the clamped radius min(15, max(8, radius)),
and returns a raster with the dimensions of its input; concretely,
radius 3 is raised to 8 and radius 25 is lowered to 15. -/
theorem C8_blur_radius_clamped (img : Raster) (radius : ℚ) :
    (applyGaussianBlur img radius).width = img.width ∧
    (applyGaussianBlur img radius).height = img.height ∧
    (applyGaussianBlur img radius).ops =
      img.ops ++ [RasterOp.blur (min 15 (max 8 radius))] ∧
    8 ≤ min (15 : ℚ) (max 8 radius) ∧ min (15 : ℚ) (max 8 radius) ≤ 15 ∧
    min (15 : ℚ) (max 8 3) = 8 ∧ min (15 : ℚ) (max 8 25) = 15 := by
  have hcomm : max MIN_BLUR_RADIUS (min MAX_BLUR_RADIUS radius) =
      min 15 (max 8 radius) := by
    unfold MIN_BLUR_RADIUS MAX_BLUR_RADIUS
    rw [max_min_distrib_left]
    norm_num
  refine ⟨rfl, rfl, ?_, ?_, min_le_left _ _, by norm_num, by norm_num⟩
  · unfold applyGaussianBlur sharpBlur
    rw [hcomm]
  · exact le_min (by norm_num) (le_max_left _ _)

/-- Two-digit rendering of the clamped alpha: every value between 51
and 77 renders as exactly two hex digits. -/
theorem hex_length_two (n : ℕ) (h1 : 51 ≤ n) (h2 : n ≤ 77) :
    (padStart2 (toStringBase16 n) '0').length = 2 := by
  interval_cases n <;> rfl

/-- C7: createRadialGradient renders the 0 and 60 percent stops fully
transparent and the 100 percent stop as black with a two-digit hex
alpha equal to round(min(0.30, max(0.20, opacity)) times 255), which
always lies between 51 and 77; concretely, input 0.10 yields alpha 51,
hex 33, and input 0.50 yields alpha 77, hex 4d. -/
theorem C7_vignette_edge_alpha (w h : ℕ) (pos : PedestalPosition) (opacity : ℚ) :
    (createRadialGradient w h pos opacity).stops =
      [⟨0, "transparent"⟩, ⟨60, "transparent"⟩,
       ⟨100, "#000000" ++ padStart2 (toStringBase16
          (jsRound (min 0.30 (max 0.20 opacity) * 255)).toNat) '0'⟩] ∧
    51 ≤ jsRound (min 0.30 (max 0.20 opacity) * 255) ∧
    jsRound (min 0.30 (max 0.20 opacity) * 255) ≤ 77 ∧
    (padStart2 (toStringBase16
        (jsRound (min 0.30 (max 0.20 opacity) * 255)).toNat) '0').length = 2 ∧
    jsRound (min 0.30 (max 0.20 (0.10 : ℚ)) * 255) = 51 ∧
    padStart2 (toStringBase16 51) '0' = "33" ∧
    jsRound (min 0.30 (max 0.20 (0.50 : ℚ)) * 255) = 77 ∧
    padStart2 (toStringBase16 77) '0' = "4d" := by
  have hcomm : max MIN_OPACITY (min MAX_OPACITY opacity) =
      min 0.30 (max 0.20 opacity) := by
    unfold MIN_OPACITY MAX_OPACITY
    rw [max_min_distrib_left]
    norm_num
  have hlo : (0.20 : ℚ) ≤ min 0.30 (max 0.20 opacity) :=
    le_min (by norm_num) (le_max_left _ _)
  have hhi : min 0.30 (max 0.20 opacity) ≤ (0.30 : ℚ) := min_le_left _ _
  have halo : (51 : ℤ) ≤ jsRound (min 0.30 (max 0.20 opacity) * 255) := by
    unfold jsRound
    exact Int.le_floor.mpr (by push_cast; nlinarith)
  have hahi : jsRound (min 0.30 (max 0.20 opacity) * 255) ≤ (77 : ℤ) := by
    unfold jsRound
    calc ⌊min 0.30 (max 0.20 opacity) * 255 + 1 / 2⌋ ≤ ⌊(77 : ℚ)⌋ :=
          Int.floor_le_floor (by nlinarith)
      _ = 77 := by norm_num
  refine ⟨?_, halo, hahi, ?_, ?_, rfl, ?_, rfl⟩
  · simp only [createRadialGradient, hcomm]
  · exact hex_length_two _ (by omega) (by omega)
  · rw [show min 0.30 (max 0.20 (0.10 : ℚ)) * 255 = 51 by norm_num]
    unfold jsRound
    rw [show (51 : ℚ) + 1 / 2 = 51.5 by norm_num]
    rw [Int.floor_eq_iff] <;> norm_num
  · rw [show min 0.30 (max 0.20 (0.50 : ℚ)) * 255 = 76.5 by norm_num]
    unfold jsRound
    rw [show (76.5 : ℚ) + 1 / 2 = 77 by norm_num]
    norm_num
